import Mathlib

/-!
Shallow embedding of the `@ticatec/pg-common-library` connection adapter
(`src/PgDBFactory.ts`): the `PgDBConnection` class over a pooled `pg`
client, and the `PgDBFactory` pool wrapper.  Driver results, the logging
collaborator and the pooled client are modelled explicitly; every adapter
method is translated from the TypeScript source.
-/

/-- Errors observable by callers: an error surfaced by the database driver,
or a JavaScript runtime `TypeError` (e.g. reading a property of `null`). -/
inductive Err where
  | dbError (msg : String)
  | typeError (msg : String)
deriving DecidableEq

/-- Message carried by an error, as used when an error is concatenated into a
log string (`'...' + e` in the source). -/
def errString : Err → String
  | Err.dbError m => m
  | Err.typeError m => m

/-- JavaScript-style values appearing in result rows and in the nested objects
built by the single-row unpack path. -/
inductive Value where
  | vNull
  | vUndefined
  | vInt (n : Int)
  | vStr (s : String)
  | vBool (b : Bool)
  | vObj (entries : List (String × Value))

/-- One result row: addressable by original column name. -/
abbrev Row := List (String × Value)

/-- A (possibly nested) object under construction, keyed by strings. -/
abbrev NObj := List (String × Value)

/-- A column descriptor from the driver result; only its `name` is ever read
by the adapter. -/
structure FieldDesc where
  name : String
deriving DecidableEq

/-- The driver's execution result shape consumed by the adapter: ordered rows,
optional column-descriptor list (`fields` may be absent on a malformed or
hand-built result, which `getFields` guards against), and an affected-row
count. -/
structure RawResult where
  rows : List Row
  fields : Option (List FieldDesc)
  rowCount : Nat

/-- Field types of the base library; the adapter only ever produces `Text`. -/
inductive FieldType where
  | Text
  | Number
  | Boolean
  | Date
deriving DecidableEq

/-- A caller-facing field (the base library's `Field`, renamed to avoid the
ambient algebraic `Field`): camelCased name plus a type. -/
structure DBField where
  name : String
  type : FieldType
deriving DecidableEq

/-- Entries recorded on the logging collaborator: `debug(sql, params)` traces
and `error(message)` records. -/
inductive LogEntry where
  | debug (sql : String) (params : Option (List Value))
  | error (msg : String)

/-- Reading a property of a row object: present columns give their value,
absent ones give JavaScript `undefined`. -/
def rowLookup : Row → String → Value
  | [], _ => Value.vUndefined
  | (k, v) :: rest, name => if k = name then v else rowLookup rest name

/-- Splitting a character list at every occurrence of a separator character;
the backbone of the dotted-path and snake_case splits. -/
def splitChar (sep : Char) : List Char → List (List Char)
  | [] => [[]]
  | c :: cs =>
    match splitChar sep cs with
    | [] => [[c]]
    | p :: ps => if c = sep then ([] : List Char) :: p :: ps else (c :: p) :: ps

/-- A JavaScript `toLowerCase` over a string. -/
def jsToLower (s : String) : String :=
  String.mk (s.toList.map Char.toLower)

/-- Capitalisation of the first character of a word. -/
def capFirst (l : List Char) : List Char :=
  match l with
  | [] => []
  | c :: cs => c.toUpper :: cs

/-- Modelled from the spec: `toCamel` of the base `DBConnection` class of
`@ticatec/node-common-library` (not in `src/`): normalises a snake_case
column name to camelCase — `user_name` becomes `userName`, a name with no
underscores is unchanged. -/
def toCamel (s : String) : String :=
  match splitChar ('_') s.toList with
  | [] => s
  | h :: t => String.mk (h ++ (t.map capFirst).flatten)

/-- Replacing the value at a key in an object, or appending the key when it is
absent. -/
def setKey : NObj → String → Value → NObj
  | [], k, v => [(k, v)]
  | (k0, v0) :: rest, k, v =>
    if k0 = k then (k, v) :: rest else (k0, v0) :: setKey rest k v

/-- Looking up a key in an object under construction. -/
def lookupKey : NObj → String → Option Value
  | [], _ => none
  | (k0, v0) :: rest, k => if k0 = k then some v0 else lookupKey rest k

/-- Assigning a value along a path of keys, creating or reusing intermediate
objects. -/
def setPath : NObj → List String → Value → NObj
  | ds, [], _ => ds
  | ds, [k], v => setKey ds k v
  | ds, k :: k2 :: rest, v =>
    let sub :=
      match lookupKey ds k with
      | some (Value.vObj es) => es
      | _ => []
    setKey ds k (Value.vObj (setPath sub (k2 :: rest) v))

/-- The segments of a column name read as a dotted path. -/
def splitPath (s : String) : List String :=
  (splitChar ('.') s.toList).map String.mk

/-- Modelled from the spec: `setNestObj` of the base `DBConnection` class of
`@ticatec/node-common-library` (not in `src/`): assigns a value into a
destination object using the column name interpreted as a dotted path — a
column literally named `a.b` nests the value under key `a`, sub-key `b`;
a name without a dot is assigned as a top-level flat key. -/
def setNestObj (ds : NObj) (path : String) (v : Value) : NObj :=
  setPath ds (splitPath path) v

/-- The pooled `pg` client held by the adapter: issuing a statement with
optional positional parameters either yields a result or fails. -/
structure PoolClient where
  query : String → Option (List Value) → Except Err RawResult

namespace PgDBConnection

/-- `beginTransaction`: issues a `BEGIN` statement; any failure propagates. -/
def beginTransaction (c : PoolClient) : Except Err Unit :=
  match c.query ("BEGIN") none with
  | Except.ok _ => Except.ok ()
  | Except.error e => Except.error e

/-- `commit`: issues a `COMMIT` statement; any failure propagates. -/
def commit (c : PoolClient) : Except Err Unit :=
  match c.query ("COMMIT") none with
  | Except.ok _ => Except.ok ()
  | Except.error e => Except.error e

/-- `rollback`: issues a `ROLLBACK` statement; a failure is caught, recorded
via the logger's `error` method, and swallowed — the method then completes
normally. -/
def rollback (c : PoolClient) : List LogEntry × Except Err Unit :=
  match c.query ("ROLLBACK") none with
  | Except.ok _ => ([], Except.ok ())
  | Except.error e =>
    ([LogEntry.error ("Cannot rollback the database.\n" ++ errString e)], Except.ok ())

/-- `executeUpdate`: logs the statement, executes it, and returns only the
driver-reported affected-row count. -/
def executeUpdate (c : PoolClient) (sql : String) (params : List Value) :
    List LogEntry × Except Err Nat :=
  match c.query sql (some params) with
  | Except.error e => ([LogEntry.debug sql (some params)], Except.error e)
  | Except.ok r => ([LogEntry.debug sql (some params)], Except.ok r.rowCount)

/-- `getFieldType`: placeholder type mapping — every column is `Text`. -/
def getFieldType (_field : FieldDesc) : FieldType :=
  FieldType.Text

/-- `getFields`: guarded projection of the column descriptors into `Field`
values with camelCased names; a null result or absent `fields` metadata
yields the empty list. -/
def getFields (result : Option RawResult) : List DBField :=
  match result with
  | none => []
  | some r =>
    match r.fields with
    | none => []
    | some fs => fs.map (fun f => { name := toCamel f.name, type := getFieldType f })

/-- `getRowSet`: unguarded projection of the row list — reading `.rows` of a
null result raises a `TypeError`. -/
def getRowSet : Option RawResult → Except Err (List Row)
  | none => Except.error (Err.typeError ("Cannot read properties of null (reading rows)"))
  | some r => Except.ok r.rows

/-- `getAffectRows`: unguarded projection of the affected-row count — reading
`.rowCount` of a null result raises a `TypeError`. -/
def getAffectRows : Option RawResult → Except Err Nat
  | none => Except.error (Err.typeError ("Cannot read properties of null (reading rowCount)"))
  | some r => Except.ok r.rowCount

/-- The object built from the first row: each column's original name is
lowercased and used as a dotted assignment path for the row's value at that
column. -/
def firstRowObj (fs : List FieldDesc) (row : Row) : NObj :=
  fs.foldl (fun ds f => setNestObj ds (jsToLower f.name) (rowLookup row f.name)) []

/-- `getFirstRow`: null when the result has no rows (the `fields` metadata is
then never touched); otherwise the nested object built from the first row —
iterating absent `fields` metadata would raise a `TypeError`. -/
def getFirstRow (result : RawResult) : Except Err (Option NObj) :=
  match result.rows with
  | [] => Except.ok none
  | row :: _ =>
    match result.fields with
    | none => Except.error (Err.typeError ("Cannot read properties of undefined (reading forEach)"))
    | some fs => Except.ok (some (firstRowObj fs row))

/-- `fetchData`: logs the statement and returns the driver's raw execution
result unmodified. -/
def fetchData (c : PoolClient) (sql : String) (params : Option (List Value)) :
    List LogEntry × Except Err RawResult :=
  ([LogEntry.debug sql params], c.query sql params)

/-- `deleteRecord`: delegates to `executeUpdate`. -/
def deleteRecord (c : PoolClient) (sql : String) (params : List Value) :
    List LogEntry × Except Err Nat :=
  executeUpdate c sql params

/-- `insertRecord`: executes the statement, then logs it, and returns
`getFirstRow` of the driver result; a driver failure propagates before the
log line runs. -/
def insertRecord (c : PoolClient) (sql : String) (params : List Value) :
    List LogEntry × Except Err (Option NObj) :=
  match c.query sql (some params) with
  | Except.error e => ([], Except.error e)
  | Except.ok r => ([LogEntry.debug sql (some params)], getFirstRow r)

/-- `updateRecord`: executes the statement, then logs it, and returns
`getFirstRow` of the driver result; a driver failure propagates before the
log line runs. -/
def updateRecord (c : PoolClient) (sql : String) (params : List Value) :
    List LogEntry × Except Err (Option NObj) :=
  match c.query sql (some params) with
  | Except.error e => ([], Except.error e)
  | Except.ok r => ([LogEntry.debug sql (some params)], getFirstRow r)

end PgDBConnection

/-- Claim C7: `deleteRecord(sql, params)` is an alias of
`executeUpdate(sql, params)` — for every client, sql string and parameter
list it produces exactly the same logs and the same affected-row-count
result, never row data. -/
theorem deleteRecord_alias (c : PoolClient) (sql : String) (ps : List Value) :
    PgDBConnection.deleteRecord c sql ps = PgDBConnection.executeUpdate c sql ps :=
  rfl

/-- Claim C10: `insertRecord` and `updateRecord` are extensionally equal —
their translations have identical bodies (execute, log, unpack the first
row), so no client, sql string or parameter list distinguishes them. -/
theorem insertRecord_eq_updateRecord (c : PoolClient) (sql : String) (ps : List Value) :
    PgDBConnection.insertRecord c sql ps = PgDBConnection.updateRecord c sql ps :=
  rfl

/-- Claim C8: `fetchData` returns the raw driver execution result unmodified —
its second component is literally the driver's answer for the given statement
and parameters, and the only other effect is one debug log line. -/
theorem fetchData_returns_raw (c : PoolClient) (sql : String) (ps : Option (List Value)) :
    (PgDBConnection.fetchData c sql ps).2 = c.query sql ps ∧
    (PgDBConnection.fetchData c sql ps).1 = [LogEntry.debug sql ps] :=
  ⟨rfl, rfl⟩

/-- Claim C1: no exception escapes `rollback()` — for every client the call
completes normally, and whenever the underlying rollback statement fails the
error is recorded through the logger's `error` method and swallowed. -/
theorem rollback_swallows_failures (c : PoolClient) :
    (PgDBConnection.rollback c).2 = Except.ok () ∧
    (∀ e, c.query ("ROLLBACK") none = Except.error e →
      (PgDBConnection.rollback c).1 =
        [LogEntry.error ("Cannot rollback the database.\n" ++ errString e)]) := by
  constructor
  · cases h : c.query ("ROLLBACK") none <;> simp [PgDBConnection.rollback, h]
  · intro e he
    simp [PgDBConnection.rollback, he]

/-- A client whose rollback statement always fails. -/
def rollbackFailClient : PoolClient :=
  { query := fun _ _ => Except.error (Err.dbError ("boom")) }

/-- Witness for claim C1: on a client whose rollback statement fails with
message `boom`, `rollback` still completes normally and the failure appears
as one logger `error` entry. -/
theorem rollback_swallows_failures_witness :
    (PgDBConnection.rollback rollbackFailClient).2 = Except.ok () ∧
    (PgDBConnection.rollback rollbackFailClient).1 =
      [LogEntry.error ("Cannot rollback the database.\nboom")] :=
  ⟨(rollback_swallows_failures rollbackFailClient).1,
   (rollback_swallows_failures rollbackFailClient).2 (Err.dbError ("boom")) rfl⟩

/-- Splitting at a separator that does not occur leaves the list whole. -/
theorem splitChar_no_sep (sep : Char) (l : List Char) (h : sep ∉ l) :
    splitChar sep l = [l] := by
  induction l with
  | nil => rfl
  | cons c cs ih =>
    rw [List.mem_cons, not_or] at h
    have h1 : ¬ (c = sep) := fun hc => h.1 hc.symm
    simp only [splitChar, ih h.2, if_neg h1]

/-- A name containing no underscore is left unchanged by `toCamel`. -/
theorem toCamel_no_underscore (s : String) (h : ('_') ∉ s.toList) : toCamel s = s := by
  unfold toCamel
  rw [splitChar_no_sep _ _ h]
  show String.mk (s.toList ++ []) = s
  rw [List.append_nil]
  rfl

/-- A dot-free name used as an assignment path acts as a single flat key. -/
theorem setNestObj_no_dot (k : String) (v : Value) (h : ('.') ∉ k.toList) :
    setNestObj [] k v = [(k, v)] := by
  unfold setNestObj splitPath
  rw [splitChar_no_sep _ _ h]
  rfl

/-- Claim C2: through `insertRecord` and `updateRecord`, a driver result with
zero rows yields `null` and never throws for that case, while a result with at
least one row yields the object built from the first row — each column's
original lowercased name used as a key, a dotted name nesting the value
(`a.b` goes under key `a`, sub-key `b`) and a dot-free name assigned as a flat
top-level key. -/
theorem insertRecord_firstRow_shape (c : PoolClient) (sql : String) (ps : List Value)
    (r : RawResult) (fs : List FieldDesc)
    (hq : c.query sql (some ps) = Except.ok r) (hf : r.fields = some fs) :
    (r.rows = [] →
      (PgDBConnection.insertRecord c sql ps).2 = Except.ok none ∧
      (PgDBConnection.updateRecord c sql ps).2 = Except.ok none) ∧
    (∀ row rest, r.rows = row :: rest →
      (PgDBConnection.insertRecord c sql ps).2 =
        Except.ok (some (PgDBConnection.firstRowObj fs row)) ∧
      (PgDBConnection.updateRecord c sql ps).2 =
        Except.ok (some (PgDBConnection.firstRowObj fs row))) ∧
    (∀ v, setNestObj [] ("a.b") v = [(("a" : String), Value.vObj [(("b" : String), v)])]) ∧
    (∀ k v, ('.') ∉ k.toList → setNestObj [] k v = [(k, v)]) := by
  refine ⟨?_, ?_, fun v => rfl, setNestObj_no_dot⟩
  · intro hrows
    constructor <;>
      simp [PgDBConnection.insertRecord, PgDBConnection.updateRecord, hq,
        PgDBConnection.getFirstRow, hrows]
  · intro row rest hrows
    constructor <;>
      simp [PgDBConnection.insertRecord, PgDBConnection.updateRecord, hq,
        PgDBConnection.getFirstRow, hrows, hf]

/-- A client answering every statement with one row whose columns are `id` and
the dotted alias `profile.name`. -/
def insertDemoClient : PoolClient :=
  { query := fun _ _ => Except.ok
      ⟨[[(("id" : String), Value.vInt 1), (("profile.name" : String), Value.vStr ("A"))]],
       some [⟨("id")⟩, ⟨("profile.name")⟩], 1⟩ }

/-- Witness for claim C2: on a one-row result with columns `id` and
`profile.name`, `insertRecord` yields the nested object with `id` flat and
`name` nested under `profile`. -/
theorem insertRecord_firstRow_shape_witness :
    (PgDBConnection.insertRecord insertDemoClient ("INSERT") []).2 =
      Except.ok (some [(("id" : String), Value.vInt 1),
        (("profile" : String), Value.vObj [(("name" : String), Value.vStr ("A"))])]) := by
  rw [((insertRecord_firstRow_shape insertDemoClient ("INSERT") [] _ _ rfl rfl).2.1
      [(("id" : String), Value.vInt 1), (("profile.name" : String), Value.vStr ("A"))] [] rfl).1]
  rfl

/-- Claim C3: `getFields` projects every column descriptor, in order, to a
field with the camelCased name and the constant `Text` type; a missing result
or missing field metadata yields the empty list and never an error, and the
camelCasing sends `user_name` to `userName` while leaving underscore-free
names unchanged. -/
theorem getFields_camel_projection (r : RawResult) (fs : List FieldDesc)
    (hf : r.fields = some fs) :
    PgDBConnection.getFields none = [] ∧
    (∀ rows rc, PgDBConnection.getFields (some ⟨rows, none, rc⟩) = []) ∧
    PgDBConnection.getFields (some r) =
      fs.map (fun f => ⟨toCamel f.name, FieldType.Text⟩) ∧
    toCamel ("user_name") = ("userName") ∧
    (∀ s : String, ('_') ∉ s.toList → toCamel s = s) := by
  refine ⟨rfl, fun rows rc => rfl, ?_, rfl, toCamel_no_underscore⟩
  simp [PgDBConnection.getFields, hf, PgDBConnection.getFieldType]

/-- Witness for claim C3: a result with columns `user_name` and `id` projects
to fields `userName` and `id`, both of type `Text`, in order. -/
theorem getFields_camel_projection_witness :
    PgDBConnection.getFields (some ⟨[], some [⟨("user_name")⟩, ⟨("id")⟩], 0⟩) =
      [⟨("userName"), FieldType.Text⟩, ⟨("id"), FieldType.Text⟩] := by
  rw [(getFields_camel_projection ⟨[], some [⟨("user_name")⟩, ⟨("id")⟩], 0⟩
      [⟨("user_name")⟩, ⟨("id")⟩] rfl).2.2.1]
  rfl

/-- Claim C4: `executeUpdate` (and through it `deleteRecord`) returns exactly
the driver-reported affected-row count, and nothing else of the result — two
results agreeing on the count give identical outcomes regardless of any rows a
`RETURNING` clause produced. -/
theorem executeUpdate_affected_count (c : PoolClient) (sql : String) (ps : List Value)
    (r : RawResult) (hq : c.query sql (some ps) = Except.ok r) :
    (PgDBConnection.executeUpdate c sql ps).2 = Except.ok r.rowCount ∧
    (∀ (c' : PoolClient) (r' : RawResult), c'.query sql (some ps) = Except.ok r' →
      r'.rowCount = r.rowCount →
      (PgDBConnection.executeUpdate c' sql ps).2 = (PgDBConnection.executeUpdate c sql ps).2) := by
  constructor
  · simp [PgDBConnection.executeUpdate, hq]
  · intro c' r' hq' hrc
    simp [PgDBConnection.executeUpdate, hq, hq', hrc]

/-- A client reporting three affected rows together with a `RETURNING` row. -/
def updateDemoClient : PoolClient :=
  { query := fun _ _ => Except.ok
      ⟨[[(("id" : String), Value.vInt 1)]], some [⟨("id")⟩], 3⟩ }

/-- A client reporting zero affected rows. -/
def updateZeroClient : PoolClient :=
  { query := fun _ _ => Except.ok ⟨[], some [⟨("id")⟩], 0⟩ }

/-- Witness for claim C4: a statement affecting three rows returns `3` even
though the result carries a returned row, and one matching no rows returns
`0`. -/
theorem executeUpdate_affected_count_witness :
    (PgDBConnection.executeUpdate updateDemoClient ("UPDATE") []).2 = Except.ok 3 ∧
    (PgDBConnection.executeUpdate updateZeroClient ("UPDATE") []).2 = Except.ok 0 :=
  ⟨(executeUpdate_affected_count updateDemoClient ("UPDATE") [] _ rfl).1,
   (executeUpdate_affected_count updateZeroClient ("UPDATE") [] _ rfl).1⟩

/-- Claim C9: on a well-shaped result, `getRowSet` returns exactly the ordered
row list and `getAffectRows` exactly the affected-row count, untransformed;
neither applies a guard, so both raise on a null result — unlike `getFields`,
which yields the empty list there. -/
theorem rowSet_affectRows_unguarded (r : RawResult) :
    PgDBConnection.getRowSet (some r) = Except.ok r.rows ∧
    PgDBConnection.getAffectRows (some r) = Except.ok r.rowCount ∧
    (∃ e, PgDBConnection.getRowSet none = Except.error e) ∧
    (∃ e, PgDBConnection.getAffectRows none = Except.error e) ∧
    PgDBConnection.getFields none = [] :=
  ⟨rfl, rfl, ⟨_, rfl⟩, ⟨_, rfl⟩, rfl⟩

/-- The `PostConnection` hook type of the source: a session-initialisation
step run against a newly established physical connection; physical clients
are identified by number in this model. -/
def PostConnection := Nat → Except Err Unit

/-- The factory: holds the optional post-acquire hook passed to its
constructor, which it registers as an async listener on the pool's `connect`
event. -/
structure PgDBFactory where
  postConnection : Option PostConnection

/-- Firing of the pool's `connect` event on a newly established physical
connection, as registered by the factory constructor: the emitter invokes the
async listener and discards the promise the listener returns, so a hook
rejection never reaches the code that triggered the connect — it is recorded
only as an unhandled rejection.  The first component lists the clients the
hook actually ran on, the second the unhandled rejections produced. -/
def firePostConnect (f : PgDBFactory) (client : Nat) : List Nat × List Err :=
  match f.postConnection with
  | none => ([], [])
  | some hook =>
    match hook client with
    | Except.ok _ => ([client], [])
    | Except.error e => ([client], [e])

/-- Everything observable about one `createDBConnection` call: the value the
caller's promise resolves with, the clients the hook ran on, and any
unhandled rejections left behind. -/
structure ConnectOutcome where
  result : Except Err Nat
  hookRuns : List Nat
  unhandledRejections : List Err

/-- `createDBConnection`: acquires a client from the pool and wraps it.  When
the pool must establish a new physical connection (`fresh`), the `connect`
event fires and the hook runs; handing out an already-established idle client
fires no `connect` event.  In either case the caller receives the client —
the hook's outcome is never awaited on this path. -/
def createDBConnection (f : PgDBFactory) (client : Nat) (fresh : Bool) : ConnectOutcome :=
  if fresh then
    { result := Except.ok client, hookRuns := (firePostConnect f client).1,
      unhandledRejections := (firePostConnect f client).2 }
  else
    { result := Except.ok client, hookRuns := [], unhandledRejections := [] }

/-- A post-acquire hook that always rejects. -/
def failingHook : PostConnection := fun _ => Except.error (Err.dbError ("session init failed"))

/-- Claim C5, evaluated on the code: the hook does run once per physical
connection establishment and not on idle reuse, but a hook failure does not
propagate to the caller that triggered the physical connect —
`createDBConnection` resolves normally for every factory, client and
acquisition mode, and the failing hook's rejection survives only as an
unhandled rejection. -/
theorem postConnection_hook_not_propagated :
    (∀ (f : PgDBFactory) (client : Nat) (fresh : Bool),
      (createDBConnection f client fresh).result = Except.ok client) ∧
    (createDBConnection ⟨some failingHook⟩ 0 true).hookRuns = [0] ∧
    (createDBConnection ⟨some failingHook⟩ 0 true).unhandledRejections =
      [Err.dbError ("session init failed")] ∧
    (createDBConnection ⟨some failingHook⟩ 0 false).hookRuns = [] := by
  refine ⟨?_, rfl, rfl, rfl⟩
  intro f client fresh
  cases fresh <;> rfl

/-- State of one pooled physical client as the pool tracks it: whether it has
already been released back to the pool. -/
structure PoolClientState where
  released : Bool
deriving DecidableEq

/-- Release of a pooled client, as the external `pg` pool implements it:
returning the client to the pool succeeds once, and the pool rejects a second
release of the same client with an error. -/
def releaseClient (st : PoolClientState) : Except Err PoolClientState :=
  if st.released then
    Except.error
      (Err.dbError ("Release called on client which has already been released to the pool."))
  else Except.ok ⟨true⟩

/-- `close`: forwards to the pooled client's `release()` with no guard of its
own against repeated release. -/
def PgDBConnection.close (st : PoolClientState) : Except Err PoolClientState :=
  releaseClient st

/-- Counterexample to claim C6 as stated: the first `close()` releases the
client back to the pool, but a second `close()` on the same adapter forwards
to `release()` again and throws the pool's double-release error — repeated
calls do throw. -/
theorem close_double_release_counterexample :
    PgDBConnection.close ⟨false⟩ = Except.ok ⟨true⟩ ∧
    PgDBConnection.close ⟨true⟩ =
      Except.error
        (Err.dbError ("Release called on client which has already been released to the pool.")) :=
  ⟨rfl, rfl⟩

/-- Claim C6 (amended): `close()` releases the physical connection back to the
pool, transitioning the adapter to its closed state, but it adds no guard
against repeated release: on a not-yet-released client it succeeds, and on an
already-released client it fails with the pool's double-release error instead
of being idempotent. -/
theorem close_release_no_guard (st : PoolClientState) :
    PgDBConnection.close st = releaseClient st ∧
    (st.released = false → PgDBConnection.close st = Except.ok ⟨true⟩) ∧
    (st.released = true → ∃ e, PgDBConnection.close st = Except.error e) := by
  refine ⟨rfl, fun h => ?_, fun h => ?_⟩
  · unfold PgDBConnection.close releaseClient
    rw [h]
    rfl
  · unfold PgDBConnection.close releaseClient
    rw [h]
    exact ⟨_, rfl⟩

/-- Witness for claim C6 (amended): a first close on an unreleased client
succeeds and marks it released. -/
theorem close_release_no_guard_witness :
    PgDBConnection.close ⟨false⟩ = Except.ok ⟨true⟩ :=
  (close_release_no_guard ⟨false⟩).2.1 rfl
